import Mathlib

/-!
Verification of the Command Dispatch & Role-Provisioning Engine of the
`uo-discordbot` repository, as a shallow embedding of the TypeScript source
(`Bot.provisionUserRoles`, `Bot._assignUserRoles`, `Bot._revokeUserRoles`,
`Bot.getUserRoles`, `Bot.addCommand`, `Bot._onMessage`) into Lean.

The chat platform (discord.js) is external: it is modelled by an explicit
`Guild` value (members with role-name sets, plus the guild role catalog) and a
`Platform` oracle that decides whether each platform call throws.  Every
platform mutation is recorded in the output (`calls`), every log/audit emission
is recorded as a `LogEntry`, so the theorems can speak about side effects.
-/

namespace UOBot

/-- A guild member: external user identifier and the role names currently
held on the platform.  The source reads `member.id` / `member.user.id`
(the same value in discord.js) and `member.roles` (mapped to role names). -/
structure Member where
  id : String
  roles : List String
deriving DecidableEq, Repr

/-- The guild as consumed by the core: the member list and the role catalog
(`guild.roles`, looked up by name). -/
structure Guild where
  members : List Member
  roleCatalog : List String
deriving DecidableEq, Repr

/-- `guild.members.find(m => m.user.id === id)`: first member with the id,
or none. -/
def findMember (g : Guild) (id : String) : Option Member :=
  g.members.find? (fun m => m.id == id)

/-- Current role-name list of the member with the given id, if present. -/
def memberRoles (g : Guild) (id : String) : Option (List String) :=
  (findMember g id).map Member.roles

/-- Replace the role list of the member with the given id by `f` applied to
it; other members untouched.  Platform-side effect of `member.addRoles` /
`member.removeRoles`. -/
def updateRoles (g : Guild) (id : String) (f : List String → List String) : Guild :=
  { g with
    members := g.members.map (fun m => if m.id == id then { m with roles := f m.roles } else m) }

/-- `this._guild!.roles.find(r => r.name === role)` for each requested name:
names that do not resolve in the catalog are silently skipped. -/
def resolveRoles (g : Guild) (names : List String) : List String :=
  names.filter (fun r => g.roleCatalog.contains r)

/-- Platform set-semantics of `member.addRoles`: adding a role already held
is a no-op (spec invariant: role mutation is idempotent). -/
def addRolesList (cur new : List String) : List String :=
  new.foldl (fun acc r => if acc.contains r then acc else acc ++ [r]) cur

/-- Platform set-semantics of `member.removeRoles`: revoking a role not held
is a no-op. -/
def removeRolesList (cur rem : List String) : List String :=
  cur.filter (fun r => !(rem.contains r))

/-- Oracle for the behaviour of the external platform calls during one
provision RPC: whether `member.addRoles` / `member.removeRoles` throws (and
with which `err.message`), and whether sending to the audit log channel
throws. -/
structure Platform where
  addRolesThrows : Bool
  addRolesErrMsg : String
  removeRolesThrows : Bool
  removeRolesErrMsg : String
  logSendFails : Bool
deriving DecidableEq, Repr

/-- Log and audit emissions of the provisioning service.
`rolesUpdated` is the audit embed sent by `_logRoleChangeFromAuth`
(action tag, member if found, result text); `roleChangeLogFailed` is its
internal catch; the `err...` entries are `log.error` calls.
`errFailedGrpcProvision` is the outer catch of `provisionUserRoles` (the only
log entry carrying the user id); it is declared for completeness but is
unreachable, because both phase handlers already catch every error. -/
inductive LogEntry
  | rolesUpdated (action : String) (user : Option String) (result : String)
  | roleChangeLogFailed
  | errAuthProvisioningFailure (msg : String)
  | errAuthRevokeFailure (msg : String)
  | errFailedGrpcProvision (id : String)
deriving DecidableEq, Repr

/-- Record of the platform role-mutation calls actually issued. -/
inductive PlatformCall
  | addRoles (id : String) (roles : List String)
  | removeRoles (id : String) (roles : List String)
deriving DecidableEq, Repr

/-- Result of one provisioning phase or of the whole `provisionUserRoles`
call: the boolean reported to the RPC caller, the resulting platform state,
the log/audit entries emitted, and the platform calls made. -/
structure ProvisionOutcome where
  success : Bool
  guild : Guild
  logs : List LogEntry
  calls : List PlatformCall
deriving DecidableEq, Repr

/-- `err.message` of the TypeError raised when `_revokeUserRoles`
dereferences a member that was not found (`rolesToRevoke = member.roles`, or
the template literal reading `member.user.username`).  The exact engine text
is irrelevant; what matters is that it is a platform error message that does
not carry the user id. -/
def nullMemberErrMsg : String := "Cannot read property of undefined"

/-- `Bot._logRoleChangeFromAuth`: send the audit embed to the log channel;
any error in doing so is caught and logged as ROLE_CHANGE_LOG_FAILED. -/
def logRoleChangeFromAuth (p : Platform) (user : Option String) (action result : String) :
    List LogEntry :=
  if p.logSendFails then [LogEntry.roleChangeLogFailed]
  else [LogEntry.rolesUpdated action user result]

/-- `Bot._assignUserRoles`: find the member; if found, resolve the requested
role names against the catalog and call `member.addRoles` with the resolved
set; in all non-throwing paths emit the AUTH_PROVISIONING audit entry with
the originally requested names and return true; a thrown platform error is
caught, logged as AUTH_PROVISIONING_FAILURE with `err.message`, and yields
false. -/
def assignUserRoles (g : Guild) (p : Platform) (id : String) (roles : List String) :
    ProvisionOutcome :=
  match findMember g id with
  | some m =>
    let rolesToAdd := resolveRoles g roles
    if p.addRolesThrows then
      { success := false, guild := g
        logs := [LogEntry.errAuthProvisioningFailure p.addRolesErrMsg]
        calls := [PlatformCall.addRoles id rolesToAdd] }
    else
      { success := true
        guild := updateRoles g id (fun cur => addRolesList cur rolesToAdd)
        logs := logRoleChangeFromAuth p (some m.id) "AUTH_PROVISIONING"
          (String.intercalate ", " roles)
        calls := [PlatformCall.addRoles id rolesToAdd] }
  | none =>
    { success := true, guild := g
      logs := logRoleChangeFromAuth p none "AUTH_PROVISIONING" (String.intercalate ", " roles)
      calls := [] }

/-- `Bot._revokeUserRoles`: find the member; compute `rolesToRevoke` (the
resolved named roles, or, when no role list is given, the member's entire
current role list); if the member was found call `member.removeRoles`; emit
the AUTH_REVOKE audit entry and return true.  When the member is missing the
source dereferences it anyway (`rolesToRevoke = member.roles` in the no-list
branch, the template literal `member.user.username` in the named branch): the
TypeError is caught by the surrounding try, logged as AUTH_REVOKE_FAILURE,
and the phase returns false with no platform call made. -/
def revokeUserRoles (g : Guild) (p : Platform) (id : String) (roles : Option (List String)) :
    ProvisionOutcome :=
  match findMember g id with
  | none =>
    { success := false, guild := g
      logs := [LogEntry.errAuthRevokeFailure nullMemberErrMsg]
      calls := [] }
  | some m =>
    let rolesToRevoke :=
      match roles with
      | some rs => resolveRoles g rs
      | none => m.roles
    if p.removeRolesThrows then
      { success := false, guild := g
        logs := [LogEntry.errAuthRevokeFailure p.removeRolesErrMsg]
        calls := [PlatformCall.removeRoles id rolesToRevoke] }
    else
      { success := true
        guild := updateRoles g id (fun cur => removeRolesList cur rolesToRevoke)
        logs := logRoleChangeFromAuth p (some m.id) "AUTH_REVOKE" (m.id ++ " roles revoked")
        calls := [PlatformCall.removeRoles id rolesToRevoke] }

/-- The distinguished revoke-all sentinel the source compares against:
`revoke.length === 1 && revoke[0] === 'Symbol(all)'`. -/
def sentinelAll : String := "Symbol(all)"

/-- The assignment step of `Bot.provisionUserRoles`:
`if (assign && assign.length > 0) success = success && (await this._assignUserRoles(...))`
with `success` initially true. -/
def assignPhase (g : Guild) (p : Platform) (id : String) (assign : Option (List String)) :
    ProvisionOutcome :=
  match assign with
  | some a =>
    if a.length > 0 then assignUserRoles g p id a
    else { success := true, guild := g, logs := [], calls := [] }
  | none => { success := true, guild := g, logs := [], calls := [] }

/-- The revocation step of `Bot.provisionUserRoles` once reached: the
single-element revoke-all sentinel check
(`revoke.length === 1 && revoke[0] === 'Symbol(all)'`) selects between
stripping everything and revoking the named roles. -/
def revokePhase (g1 : Guild) (p : Platform) (id : String) (r : List String) :
    ProvisionOutcome :=
  if r.length == 1 && r.headD "" == sentinelAll then revokeUserRoles g1 p id none
  else revokeUserRoles g1 p id (some r)

/-- `Bot.provisionUserRoles`: the assignment step runs first (when `assign`
is non-empty); then, because the source writes
`success = success && (await this._revokeUserRoles(...))` and JavaScript
`&&` short-circuits, the revocation step runs only when the running success
flag is still true.  Both phase handlers catch every platform error, so the
outer catch (`log.error` FAILED_GRPC_PROVISION, `return false`) is
unreachable and contributes nothing to the result. -/
def provisionUserRoles (g : Guild) (p : Platform) (id : String)
    (assign revoke : Option (List String)) : ProvisionOutcome :=
  let afterAssign : ProvisionOutcome := assignPhase g p id assign
  match revoke with
  | some r =>
    if r.length > 0 then
      if afterAssign.success then
        let out := revokePhase afterAssign.guild p id r
        { success := afterAssign.success && out.success, guild := out.guild
          logs := afterAssign.logs ++ out.logs
          calls := afterAssign.calls ++ out.calls }
      else afterAssign
    else afterAssign
  | none => afterAssign

/-- One `{id, roles[]}` entry of the GetRoles RPC response. -/
structure RoleSet where
  id : String
  roles : List String
deriving DecidableEq, Repr

/-- GetRoles RPC response shape (`UserRoleSets` in the source). -/
structure UserRoleSets where
  users : List RoleSet
deriving DecidableEq, Repr

/-- `Bot.getUserRoles`: with an id, the source reads
`members.find(m => m.id === id).roles` without a null check, so a missing
member raises a TypeError (modelled as `Except.error`); without an id it
returns one `{id, roles}` entry per member.  The function only reads the
guild (no state is mutated), which the model reflects by not returning a
guild. -/
def getUserRoles (g : Guild) (id : Option String) : Except String UserRoleSets :=
  match id with
  | some i =>
    match findMember g i with
    | some m => Except.ok { users := [{ id := i, roles := m.roles }] }
    | none => Except.error "TypeError: cannot read roles of a missing member"
  | none =>
    Except.ok { users := g.members.map (fun m => { id := m.id, roles := m.roles }) }

/-!
## Command registry (`Bot._commands`, built by `Bot.addCommand`)

A JavaScript `Map` observed through `set`/`get`: `set` overwrites the value
of an existing key in place and appends new keys; `get` returns the value of
the first (hence unique) entry with the key, or none.
-/

/-- JS `Map.prototype.set` on the insertion-ordered entry list: update the
entry of an existing key in place (keys are unique by construction, so the
first hit is the only one), append a new key at the end. -/
def mapSet {α : Type} : List (String × α) → String → α → List (String × α)
  | [], k, v => [(k, v)]
  | p :: rest, k, v => if p.1 == k then (k, v) :: rest else p :: mapSet rest k v

/-- JS `Map.prototype.get` on an association list. -/
def mapGet {α : Type} (m : List (String × α)) (k : String) : Option α :=
  (m.find? (fun p => p.1 == k)).map Prod.snd

/-- One `bot.addCommand(cmd, desc, action, provision?)` call: the keyword,
the help description, the handler, and the optional access decorator
(its display name together with the wrapping function). -/
structure Registration (α : Type) where
  cmd : String
  desc : String
  action : α
  provision : Option (String × (α → α))

/-- The handler actually stored by `addCommand`:
`provision ? provision(action) : action`. -/
def effectiveHandler {α : Type} (r : Registration α) : α :=
  match r.provision with
  | some pr => pr.2 r.action
  | none => r.action

/-- The description actually stored by `addCommand` (the decorator name is
appended when a decorator is supplied). -/
def decoratedDesc {α : Type} (r : Registration α) : String :=
  match r.provision with
  | some pr => r.desc ++ " (" ++ pr.1 ++ ")"
  | none => r.desc

/-- The two maps held by the `Bot` instance. -/
structure CommandRegistry (α : Type) where
  commands : List (String × α)
  descriptions : List (String × String)

/-- `Bot.addCommand`. -/
def addCommand {α : Type} (st : CommandRegistry α) (r : Registration α) : CommandRegistry α :=
  { commands := mapSet st.commands r.cmd (effectiveHandler r)
    descriptions := mapSet st.descriptions r.cmd (decoratedDesc r) }

/-- The registry after the startup chain of `addCommand` calls, beginning
from the empty maps the `Bot` constructor creates. -/
def buildRegistry {α : Type} (regs : List (Registration α)) : CommandRegistry α :=
  regs.foldl addCommand { commands := [], descriptions := [] }

/-!
## Dispatcher (`Bot._onMessage`)

One inbound message event.  The handler resolved from the registry is
abstracted by its behaviour on this particular message (`HandlerBehaviour`);
the platform calls that may throw (`msg.delete`, `msg.author.send`, the log
channel send inside `_logCommandUse`) are decided by the `DispatchEnv`
oracle.  The observable actions are returned as an `Effect` list in program
order.
-/

/-- Behaviour of a resolved command handler on the dispatched message:
it returns an outcome string or it throws. -/
inductive HandlerBehaviour
  | ok (output : String)
  | throws (msg : String)
deriving DecidableEq, Repr

/-- The inbound message as consumed by `_onMessage`. -/
structure Msg where
  authorBot : Bool
  content : String
  inGuild : Bool
  authorUsername : String
deriving DecidableEq, Repr

/-- Environment of one dispatch: the command map (each handler given by its
behaviour on this message) and the throw-oracles of the platform calls. -/
structure DispatchEnv where
  commands : List (String × HandlerBehaviour)
  deleteThrows : Bool
  dmSendThrows : Bool
  logChannelThrows : Bool
deriving DecidableEq, Repr

/-- Observable actions of one `_onMessage` run, in program order. -/
inductive Effect
  | requestCountIncr
  | msgDelete
  | dmSent (text : String)
  | logErr (tag : String)
  | cmdUseAudit (output : String)
  | logCmd (line : String)
  | processExit (code : Nat)
deriving DecidableEq, Repr

/-- Split a character list at every single space, keeping empty pieces,
like JS `String.prototype.split(' ')`. -/
def splitSpaces : List Char → List Char → List (List Char)
  | [], acc => [acc.reverse]
  | c :: rest, acc =>
    if c == ' ' then acc.reverse :: splitSpaces rest []
    else splitSpaces rest (c :: acc)

/-- First whitespace-delimited token of the message text
(`msg.content.split(' ')[0]`); the empty string when the text is empty,
exactly as in JS where `''.split(' ')` is `['']`. -/
def cmdToken (content : String) : String :=
  String.mk ((splitSpaces content.toList []).headD [])

/-- `cmd.slice(1)`: the command string with its first character removed. -/
def keyOf (cmd : String) : String :=
  String.mk (cmd.toList.drop 1)

/-- `cmd.startsWith('!')`: the first character is the command marker. -/
def startsWithMarker (cmd : String) : Bool :=
  match cmd.toList with
  | [] => false
  | c :: _ => c == '!'

/-- The private apology sent on an unknown command (text abbreviated). -/
def unknownCmdNotice (cmd : String) : String :=
  "Sorry, I was not taught how to handle " ++ cmd ++ "."

/-- The exact string the shutdown check compares the handler outcome to. -/
def shutdownSentinel : String := "shutdown successful"

/-- `Bot._onMessage`.  Bot authors and non-`!` messages are ignored.  For a
resolved command: in guild context the triggering message is deleted first
(a throw there, or in the handler, is caught and logged as COMMAND);
on success `_logCommandUse` sends the audit embed (its failure is caught
internally as COMMAND_USE_LOG_FAILED), `log.cmd` records the outcome, and
the process exits iff the first token is `!shutdown` and the outcome is the
sentinel.  For an unknown keyword the source deletes the message
unconditionally, then DMs the apology and logs NO_COMMAND; a throw anywhere
in that sequence is caught and logged as MESSAGE_DELETE. -/
def onMessage (env : DispatchEnv) (msg : Msg) : List Effect :=
  if msg.authorBot then []
  else
    let cmd := cmdToken msg.content
    let cmdKey := keyOf cmd
    if startsWithMarker cmd then
      Effect.requestCountIncr ::
      (match mapGet env.commands cmdKey with
       | some fn =>
         let origin := if msg.inGuild then "GLD" else "PM"
         if msg.inGuild && env.deleteThrows then
           [Effect.logErr ("COMMAND (" ++ origin ++ ")(" ++ msg.authorUsername ++ " - " ++ cmd ++ ")")]
         else
           (if msg.inGuild then [Effect.msgDelete] else []) ++
           (match fn with
            | HandlerBehaviour.throws _ =>
              [Effect.logErr ("COMMAND (" ++ origin ++ ")(" ++ msg.authorUsername ++ " - " ++ cmd ++ ")")]
            | HandlerBehaviour.ok output =>
              (if env.logChannelThrows then [Effect.logErr "COMMAND_USE_LOG_FAILED"]
               else [Effect.cmdUseAudit output]) ++
              [Effect.logCmd ("(" ++ origin ++ ")(" ++ msg.authorUsername ++ " - " ++ cmd ++ ") - " ++ output)] ++
              (if cmd == "!shutdown" && output == shutdownSentinel then [Effect.processExit 0]
               else []))
       | none =>
         if env.deleteThrows then [Effect.logErr "MESSAGE_DELETE"]
         else
           Effect.msgDelete ::
           (if env.dmSendThrows then [Effect.logErr "MESSAGE_DELETE"]
            else [Effect.dmSent (unknownCmdNotice cmd),
                  Effect.logErr ("NO_COMMAND (" ++ msg.authorUsername ++ ") - " ++ cmd)]))
    else []

/-!
## Helper lemmas
-/

theorem id_updateRole (m : Member) (i : String) (f : List String → List String) :
    (if m.id == i then { m with roles := f m.roles } else m).id = m.id := by
  by_cases h : m.id == i <;> simp [h]

theorem findMember_updateRoles (g : Guild) (i j : String) (f : List String → List String) :
    findMember (updateRoles g i f) j
      = (findMember g j).map (fun m => if m.id == i then { m with roles := f m.roles } else m) := by
  unfold findMember updateRoles
  rw [List.find?_map]
  have hcomp :
      ((fun m => m.id == j) ∘ fun m => if m.id == i then { m with roles := f m.roles } else m)
        = (fun m : Member => m.id == j) := by
    funext m
    by_cases h : m.id == i <;> simp [Function.comp, h]
  rw [hcomp]

theorem memberRoles_updateRoles (g : Guild) (i : String) (f : List String → List String)
    (m : Member) (hm : findMember g i = some m) :
    memberRoles (updateRoles g i f) i = some (f m.roles) := by
  have hm2 : g.members.find? (fun x => x.id == i) = some m := hm
  have hid : m.id = i := by simpa using List.find?_some hm2
  unfold memberRoles
  rw [findMember_updateRoles, hm]
  simp [hid]

theorem memberRoles_some (g : Guild) (i : String) (m : Member) (hm : findMember g i = some m) :
    memberRoles g i = some m.roles := by
  unfold memberRoles
  rw [hm]
  rfl

theorem removeRolesList_self (l : List String) : removeRolesList l l = [] := by
  unfold removeRolesList
  rw [List.filter_eq_nil_iff]
  intro a ha
  simp [List.contains, ha]

theorem assignUserRoles_found_ok (g : Guild) (p : Platform) (id : String) (a : List String)
    (m : Member) (hm : findMember g id = some m) (ha : p.addRolesThrows = false) :
    assignUserRoles g p id a =
      { success := true
        guild := updateRoles g id (fun cur => addRolesList cur (resolveRoles g a))
        logs := logRoleChangeFromAuth p (some m.id) "AUTH_PROVISIONING"
          (String.intercalate ", " a)
        calls := [PlatformCall.addRoles id (resolveRoles g a)] } := by
  unfold assignUserRoles
  rw [hm]
  simp [ha]

theorem revokeUserRoles_all_found (g : Guild) (p : Platform) (id : String)
    (m : Member) (hm : findMember g id = some m) (hr : p.removeRolesThrows = false) :
    revokeUserRoles g p id none =
      { success := true
        guild := updateRoles g id (fun cur => removeRolesList cur m.roles)
        logs := logRoleChangeFromAuth p (some m.id) "AUTH_REVOKE" (m.id ++ " roles revoked")
        calls := [PlatformCall.removeRoles id m.roles] } := by
  unfold revokeUserRoles
  rw [hm]
  simp [hr]

theorem assignPhase_found_ok (g : Guild) (p : Platform) (id : String)
    (assign : Option (List String)) (m : Member)
    (hm : findMember g id = some m) (ha : p.addRolesThrows = false) :
    (assignPhase g p id assign).success = true ∧
      ∃ m1, findMember (assignPhase g p id assign).guild id = some m1 := by
  cases assign with
  | none => exact ⟨rfl, m, hm⟩
  | some a =>
    by_cases hlen : a.length > 0
    · rw [assignPhase, if_pos hlen, assignUserRoles_found_ok g p id a m hm ha]
      refine ⟨rfl, ?_⟩
      rw [findMember_updateRoles, hm]
      exact ⟨_, rfl⟩
    · rw [assignPhase, if_neg hlen]
      exact ⟨rfl, m, hm⟩

/-- Core fact behind the revoke-all claims: on an existing member, with the
platform not throwing, a `Provision` whose revoke list is the single
sentinel ends with the member holding no roles at all (the assignment step
runs first and the revoke-all step then strips every role, the freshly
assigned ones included), and the call reports success. -/
theorem provision_revokeAll_final (g : Guild) (p : Platform) (id : String)
    (assign : Option (List String)) (m : Member)
    (hm : findMember g id = some m)
    (ha : p.addRolesThrows = false) (hr : p.removeRolesThrows = false) :
    memberRoles (provisionUserRoles g p id assign (some [sentinelAll])).guild id = some [] ∧
      (provisionUserRoles g p id assign (some [sentinelAll])).success = true := by
  obtain ⟨hs, m1, hm1⟩ := assignPhase_found_ok g p id assign m hm ha
  have hrp : revokePhase (assignPhase g p id assign).guild p id [sentinelAll]
      = revokeUserRoles (assignPhase g p id assign).guild p id none := by
    unfold revokePhase
    rw [if_pos (by decide)]
  have hout := revokeUserRoles_all_found (assignPhase g p id assign).guild p id m1 hm1 hr
  have hroles :
      memberRoles (updateRoles (assignPhase g p id assign).guild id
        (fun cur => removeRolesList cur m1.roles)) id = some [] := by
    rw [memberRoles_updateRoles _ _ _ m1 hm1, removeRolesList_self]
  unfold provisionUserRoles
  simp only [hs, hrp, hout, hroles, List.length_cons, List.length_nil, Nat.zero_lt_succ, if_true,
    Bool.true_and]
  constructor
  · simp [hroles]
  · simp

/-!
## Claim theorems
-/

/-- Boolean test for equality of two role lists as sets. -/
def sameSet (a b : List String) : Bool :=
  a.all (fun x => b.contains x) && b.all (fun x => a.contains x)

/-- C1 (counterexample).  `Provision("u1", assign=["A","B"], revoke=["all"])`
does not leave the role set equal to {A, B} when the member previously held
role C (all of A, B, C resolving in the catalog), under either reading of
`"all"`: the literal string `"all"` is not the source's sentinel
`'Symbol(all)'`, so nothing is revoked and the final set is {C, A, B}; and
with the actual sentinel the revoke-all step runs *after* the assignment
step and strips everything, leaving the empty set — in neither case {A, B}. -/
theorem provision_final_set_counterexample :
    memberRoles (provisionUserRoles
        { members := [{ id := "u1", roles := ["C"] }], roleCatalog := ["A", "B", "C"] }
        { addRolesThrows := false, addRolesErrMsg := "", removeRolesThrows := false,
          removeRolesErrMsg := "", logSendFails := false }
        "u1" (some ["A", "B"]) (some ["all"])).guild "u1" = some ["C", "A", "B"] ∧
    memberRoles (provisionUserRoles
        { members := [{ id := "u1", roles := ["C"] }], roleCatalog := ["A", "B", "C"] }
        { addRolesThrows := false, addRolesErrMsg := "", removeRolesThrows := false,
          removeRolesErrMsg := "", logSendFails := false }
        "u1" (some ["A", "B"]) (some [sentinelAll])).guild "u1" = some [] ∧
    sameSet ["C", "A", "B"] ["A", "B"] = false ∧
    sameSet [] ["A", "B"] = false := by
  decide

/-- C1 (amended).  For every member state, `Provision("u1",
assign=["A","B"], revoke=[the revoke-all sentinel])` with the platform not
throwing leaves the member's final role set *empty* regardless of the roles
held before the call: the assignment step is applied first and the
revoke-all step then strips every role, including A and B which were just
assigned. -/
theorem provision_assign_then_revokeAll (g : Guild) (p : Platform)
    (m : Member) (hm : findMember g "u1" = some m)
    (ha : p.addRolesThrows = false) (hr : p.removeRolesThrows = false) :
    memberRoles (provisionUserRoles g p "u1" (some ["A", "B"]) (some [sentinelAll])).guild "u1"
      = some [] :=
  (provision_revokeAll_final g p "u1" (some ["A", "B"]) m hm ha hr).1

/-- Witness for C1 (amended) at a concrete guild. -/
theorem provision_assign_then_revokeAll_witness :
    memberRoles (provisionUserRoles
        { members := [{ id := "u1", roles := ["C"] }], roleCatalog := ["A", "B", "C"] }
        { addRolesThrows := false, addRolesErrMsg := "", removeRolesThrows := false,
          removeRolesErrMsg := "", logSendFails := false }
        "u1" (some ["A", "B"]) (some [sentinelAll])).guild "u1" = some [] :=
  provision_assign_then_revokeAll
    { members := [{ id := "u1", roles := ["C"] }], roleCatalog := ["A", "B", "C"] }
    { addRolesThrows := false, addRolesErrMsg := "", removeRolesThrows := false,
      removeRolesErrMsg := "", logSendFails := false }
    { id := "u1", roles := ["C"] } (by decide) rfl rfl

/-- C9.  For every `Provision` call on an existing member whose revoke list
is the single revoke-all sentinel (and the platform not throwing, so that
the phases run to completion), the revocation phase strips every role the
member holds at that point: the member's final role set is empty. -/
theorem provision_revokeAll_strips (g : Guild) (p : Platform) (id : String)
    (assign : Option (List String)) (m : Member)
    (hm : findMember g id = some m)
    (ha : p.addRolesThrows = false) (hr : p.removeRolesThrows = false) :
    memberRoles (provisionUserRoles g p id assign (some [sentinelAll])).guild id = some [] ∧
      (provisionUserRoles g p id assign (some [sentinelAll])).success = true :=
  provision_revokeAll_final g p id assign m hm ha hr

/-- Witness for C9 at a concrete guild (no assignment step). -/
theorem provision_revokeAll_strips_witness :
    memberRoles (provisionUserRoles
        { members := [{ id := "w9", roles := ["X", "Y"] }], roleCatalog := ["X", "Y"] }
        { addRolesThrows := false, addRolesErrMsg := "", removeRolesThrows := false,
          removeRolesErrMsg := "", logSendFails := false }
        "w9" none (some [sentinelAll])).guild "w9" = some [] ∧
      (provisionUserRoles
        { members := [{ id := "w9", roles := ["X", "Y"] }], roleCatalog := ["X", "Y"] }
        { addRolesThrows := false, addRolesErrMsg := "", removeRolesThrows := false,
          removeRolesErrMsg := "", logSendFails := false }
        "w9" none (some [sentinelAll])).success = true :=
  provision_revokeAll_strips
    { members := [{ id := "w9", roles := ["X", "Y"] }], roleCatalog := ["X", "Y"] }
    { addRolesThrows := false, addRolesErrMsg := "", removeRolesThrows := false,
      removeRolesErrMsg := "", logSendFails := false }
    "w9" none { id := "w9", roles := ["X", "Y"] } (by decide) rfl rfl

/-- C2 (evaluation at the failing input).  `Provision("ghost", assign=[],
revoke=["R"])` on a guild in which no member has id `"ghost"`: the
assignment phase is an empty no-op, but the revocation phase dereferences
the missing member, the TypeError is caught, AUTH_REVOKE_FAILURE is logged,
and the call returns success=false with no audit entry — where the claim
(and §4.4 of the spec) demand a no-op with success=true plus an audit
entry.  The `if (member)` guard around `removeRoles` and the graceful
missing-member path of `_assignUserRoles` show the no-op behaviour was the
intent, so this is a slip in the code. -/
theorem provision_missing_member_revoke_eval :
    provisionUserRoles { members := [{ id := "m1", roles := ["R"] }], roleCatalog := ["R"] }
      { addRolesThrows := false, addRolesErrMsg := "", removeRolesThrows := false,
        removeRolesErrMsg := "", logSendFails := false }
      "ghost" (some []) (some ["R"])
      = { success := false
          guild := { members := [{ id := "m1", roles := ["R"] }], roleCatalog := ["R"] }
          logs := [LogEntry.errAuthRevokeFailure nullMemberErrMsg]
          calls := [] } := by
  decide

/-- C10.  When the assignment phase fails (the platform `addRoles` call
throws) on a `Provision` call with non-empty assign and revoke lists, the
`success && (await ...)` short-circuit means the revocation phase is never
executed: the result is exactly the failed assignment outcome — overall
failure, the guild untouched, the only log entry the
AUTH_PROVISIONING_FAILURE error, and the only platform call the attempted
`addRoles` (no role-removal call, no AUTH_REVOKE audit entry). -/
theorem assign_failure_skips_revoke (g : Guild) (p : Platform) (id : String)
    (a r : List String) (m : Member) (hm : findMember g id = some m)
    (hna : a.length > 0) (ht : p.addRolesThrows = true) (hnr : r.length > 0) :
    provisionUserRoles g p id (some a) (some r)
      = { success := false
          guild := g
          logs := [LogEntry.errAuthProvisioningFailure p.addRolesErrMsg]
          calls := [PlatformCall.addRoles id (resolveRoles g a)] } := by
  have hassign : assignUserRoles g p id a
      = { success := false
          guild := g
          logs := [LogEntry.errAuthProvisioningFailure p.addRolesErrMsg]
          calls := [PlatformCall.addRoles id (resolveRoles g a)] } := by
    unfold assignUserRoles
    rw [hm]
    simp [ht]
  unfold provisionUserRoles assignPhase
  simp [hna, hassign, hnr]

/-- Witness for C10 at a concrete input. -/
theorem assign_failure_skips_revoke_witness :
    provisionUserRoles { members := [{ id := "w10", roles := ["R1"] }], roleCatalog := ["A1", "R1"] }
      { addRolesThrows := true, addRolesErrMsg := "network down", removeRolesThrows := false,
        removeRolesErrMsg := "", logSendFails := false }
      "w10" (some ["A1"]) (some ["R1"])
      = { success := false
          guild := { members := [{ id := "w10", roles := ["R1"] }], roleCatalog := ["A1", "R1"] }
          logs := [LogEntry.errAuthProvisioningFailure "network down"]
          calls := [PlatformCall.addRoles "w10" ["A1"]] } :=
  assign_failure_skips_revoke
    { members := [{ id := "w10", roles := ["R1"] }], roleCatalog := ["A1", "R1"] }
    { addRolesThrows := true, addRolesErrMsg := "network down", removeRolesThrows := false,
      removeRolesErrMsg := "", logSendFails := false }
    "w10" ["A1"] ["R1"] { id := "w10", roles := ["R1"] } (by decide) (by decide) rfl (by decide)

theorem assignUserRoles_failure_logs (g : Guild) (p : Platform) (id : String) (a : List String)
    (h : (assignUserRoles g p id a).success = false) :
    LogEntry.errAuthProvisioningFailure p.addRolesErrMsg ∈ (assignUserRoles g p id a).logs := by
  unfold assignUserRoles at h ⊢
  cases hm : findMember g id with
  | none =>
    rw [hm] at h
    simp at h
  | some m =>
    by_cases ht : p.addRolesThrows
    · simp [ht]
    · rw [hm] at h
      simp [ht] at h

theorem revokeUserRoles_failure_logs (g : Guild) (p : Platform) (id : String)
    (rs : Option (List String))
    (h : (revokeUserRoles g p id rs).success = false) :
    ∃ s, LogEntry.errAuthRevokeFailure s ∈ (revokeUserRoles g p id rs).logs := by
  unfold revokeUserRoles at h ⊢
  cases hm : findMember g id with
  | none => exact ⟨nullMemberErrMsg, by simp⟩
  | some m =>
    by_cases ht : p.removeRolesThrows
    · exact ⟨p.removeRolesErrMsg, by simp [ht]⟩
    · rw [hm] at h
      simp [ht] at h

theorem assignPhase_failure_logs (g : Guild) (p : Platform) (id : String)
    (assign : Option (List String))
    (h : (assignPhase g p id assign).success = false) :
    LogEntry.errAuthProvisioningFailure p.addRolesErrMsg ∈ (assignPhase g p id assign).logs := by
  cases assign with
  | none => simp [assignPhase] at h
  | some a =>
    by_cases hlen : a.length > 0
    · rw [assignPhase, if_pos hlen] at h ⊢
      exact assignUserRoles_failure_logs g p id a h
    · rw [assignPhase, if_neg hlen] at h
      simp at h

theorem revokePhase_failure_logs (g1 : Guild) (p : Platform) (id : String) (r : List String)
    (h : (revokePhase g1 p id r).success = false) :
    ∃ s, LogEntry.errAuthRevokeFailure s ∈ (revokePhase g1 p id r).logs := by
  unfold revokePhase at h ⊢
  by_cases hc : (r.length == 1 && r.headD "" == sentinelAll) = true
  · rw [if_pos hc] at h ⊢
    exact revokeUserRoles_failure_logs g1 p id none h
  · rw [if_neg hc] at h ⊢
    exact revokeUserRoles_failure_logs g1 p id (some r) h

/-- C3 (amended).  For every input and every platform behaviour, the
`Provision` call returns a definite boolean (the model is a total function
into `ProvisionOutcome`; the source's phase handlers catch every platform
error, so nothing escapes to the RPC layer), and whenever the call reports
failure, an error log entry tagged with the failing phase
(AUTH_PROVISIONING_FAILURE or AUTH_REVOKE_FAILURE, carrying the platform
error message) has been emitted.  The user id is named only by the
outer-catch FAILED_GRPC_PROVISION entry, which is unreachable. -/
theorem provision_failure_has_error_log (g : Guild) (p : Platform) (id : String)
    (assign revoke : Option (List String))
    (h : (provisionUserRoles g p id assign revoke).success = false) :
    (∃ s, LogEntry.errAuthProvisioningFailure s
        ∈ (provisionUserRoles g p id assign revoke).logs) ∨
    (∃ s, LogEntry.errAuthRevokeFailure s
        ∈ (provisionUserRoles g p id assign revoke).logs) := by
  unfold provisionUserRoles at h ⊢
  cases revoke with
  | none => exact Or.inl ⟨p.addRolesErrMsg, assignPhase_failure_logs g p id assign h⟩
  | some r =>
    simp only [] at h ⊢
    by_cases hlen : r.length > 0
    · rw [if_pos hlen] at h ⊢
      by_cases hs : (assignPhase g p id assign).success
      · rw [if_pos hs] at h ⊢
        simp only [hs, Bool.true_and] at h
        obtain ⟨s, hmem⟩ :=
          revokePhase_failure_logs (assignPhase g p id assign).guild p id r h
        exact Or.inr ⟨s, by simp [hmem]⟩
      · rw [if_neg hs] at h ⊢
        exact Or.inl ⟨p.addRolesErrMsg,
          assignPhase_failure_logs g p id assign (Bool.eq_false_iff.mpr hs)⟩
    · rw [if_neg hlen] at h ⊢
      exact Or.inl ⟨p.addRolesErrMsg, assignPhase_failure_logs g p id assign h⟩

/-- Witness for C3 (amended): a concrete failing call (missing member with a
non-empty revoke list) to which the theorem applies. -/
theorem provision_failure_has_error_log_witness :
    (∃ s, LogEntry.errAuthProvisioningFailure s
        ∈ (provisionUserRoles { members := [], roleCatalog := ["R"] }
            { addRolesThrows := false, addRolesErrMsg := "", removeRolesThrows := false,
              removeRolesErrMsg := "", logSendFails := false }
            "w3" (some []) (some ["R"])).logs) ∨
    (∃ s, LogEntry.errAuthRevokeFailure s
        ∈ (provisionUserRoles { members := [], roleCatalog := ["R"] }
            { addRolesThrows := false, addRolesErrMsg := "", removeRolesThrows := false,
              removeRolesErrMsg := "", logSendFails := false }
            "w3" (some []) (some ["R"])).logs) :=
  provision_failure_has_error_log { members := [], roleCatalog := ["R"] }
    { addRolesThrows := false, addRolesErrMsg := "", removeRolesThrows := false,
      removeRolesErrMsg := "", logSendFails := false }
    "w3" (some []) (some ["R"]) (by decide)

/-- Whether `sub` occurs as a contiguous substring of `s` (checked on the
character lists). -/
def strContains (s sub : String) : Bool :=
  (List.range (s.toList.length + 1)).any (fun k => sub.toList.isPrefixOf (s.toList.drop k))

/-- Whether a log entry names the given user id: the audit embeds carry the
member, the (unreachable) outer-catch entry carries the id verbatim, and for
the phase error entries we even allow the id occurring anywhere inside the
platform error message. -/
def logNamesId (e : LogEntry) (id : String) : Bool :=
  match e with
  | LogEntry.rolesUpdated _ u r => u == some id || strContains r id
  | LogEntry.roleChangeLogFailed => false
  | LogEntry.errAuthProvisioningFailure s => strContains s id
  | LogEntry.errAuthRevokeFailure s => strContains s id
  | LogEntry.errFailedGrpcProvision i => i == id

/-- C3 (counterexample).  A platform error during the assignment phase
(member `"u1"` exists, `addRoles` throws with message `"boom"`) yields the
result false — but the only log entry emitted is
AUTH_PROVISIONING_FAILURE with the platform error message, and no emitted
entry names the user id `"u1"`, contradicting the claim that the error log
entry names the user id (the id-naming FAILED_GRPC_PROVISION log is dead
code: both phase handlers already catch every error). -/
theorem provision_error_log_no_id_counterexample :
    provisionUserRoles { members := [{ id := "u1", roles := [] }], roleCatalog := ["A"] }
      { addRolesThrows := true, addRolesErrMsg := "boom", removeRolesThrows := false,
        removeRolesErrMsg := "", logSendFails := false }
      "u1" (some ["A"]) none
      = { success := false
          guild := { members := [{ id := "u1", roles := [] }], roleCatalog := ["A"] }
          logs := [LogEntry.errAuthProvisioningFailure "boom"]
          calls := [PlatformCall.addRoles "u1" ["A"]] } ∧
    (provisionUserRoles { members := [{ id := "u1", roles := [] }], roleCatalog := ["A"] }
      { addRolesThrows := true, addRolesErrMsg := "boom", removeRolesThrows := false,
        removeRolesErrMsg := "", logSendFails := false }
      "u1" (some ["A"]) none).logs.all (fun e => !(logNamesId e "u1")) = true := by
  decide

/-- C8.  `GetRoles` without an id returns exactly one `{id, roles}` entry
per member of the community, each carrying that member's current role-name
list; `GetRoles` with an id returns exactly one entry (for the member found
under that id), and is an error when no member has the id.  The operation
only reads the guild: the model is a pure function that returns no modified
state, mirroring the read-only source. -/
theorem getUserRoles_spec (g : Guild) (i : String) :
    (∀ m, findMember g i = some m →
      getUserRoles g (some i) = Except.ok { users := [{ id := i, roles := m.roles }] }) ∧
    (findMember g i = none →
      getUserRoles g (some i)
        = Except.error "TypeError: cannot read roles of a missing member") ∧
    getUserRoles g none
      = Except.ok { users := g.members.map (fun m => { id := m.id, roles := m.roles }) } := by
  refine ⟨?_, ?_, rfl⟩
  · intro m hm
    simp [getUserRoles, hm]
  · intro hm
    simp [getUserRoles, hm]

/-- Witness for C8 at a concrete guild: a found id, a missing id, and the
all-members query. -/
theorem getUserRoles_spec_witness :
    getUserRoles
      { members := [{ id := "u1", roles := ["X"] }, { id := "u2", roles := [] }],
        roleCatalog := ["X"] }
      (some "u1")
      = Except.ok { users := [{ id := "u1", roles := ["X"] }] } ∧
    getUserRoles
      { members := [{ id := "u1", roles := ["X"] }, { id := "u2", roles := [] }],
        roleCatalog := ["X"] }
      (some "zz")
      = Except.error "TypeError: cannot read roles of a missing member" ∧
    getUserRoles
      { members := [{ id := "u1", roles := ["X"] }, { id := "u2", roles := [] }],
        roleCatalog := ["X"] }
      none
      = Except.ok { users := [{ id := "u1", roles := ["X"] }, { id := "u2", roles := [] }] } :=
  ⟨(getUserRoles_spec
      { members := [{ id := "u1", roles := ["X"] }, { id := "u2", roles := [] }],
        roleCatalog := ["X"] }
      "u1").1 { id := "u1", roles := ["X"] } (by decide),
   (getUserRoles_spec
      { members := [{ id := "u1", roles := ["X"] }, { id := "u2", roles := [] }],
        roleCatalog := ["X"] }
      "zz").2.1 (by decide),
   (getUserRoles_spec
      { members := [{ id := "u1", roles := ["X"] }, { id := "u2", roles := [] }],
        roleCatalog := ["X"] }
      "anything").2.2⟩

theorem mapGet_mapSet {α : Type} (m : List (String × α)) (k q : String) (v : α) :
    mapGet (mapSet m k v) q = if q = k then some v else mapGet m q := by
  induction m with
  | nil =>
    by_cases h : q = k
    · subst h
      simp [mapSet, mapGet, List.find?]
    · have hkq : (k == q) = false := beq_eq_false_iff_ne.mpr (Ne.symm h)
      simp [mapSet, mapGet, List.find?, h, hkq]
  | cons hd tl ih =>
    by_cases hk : (hd.1 == k) = true
    · have h1 : hd.1 = k := by simpa using hk
      by_cases h : q = k
      · subst h
        simp [mapSet, hk, mapGet, List.find?, h1]
      · have hkq : (k == q) = false := beq_eq_false_iff_ne.mpr (Ne.symm h)
        simp [mapSet, hk, mapGet, List.find?, h1, h, hkq]
    · by_cases hq : (hd.1 == q) = true
      · have h2 : hd.1 = q := by simpa using hq
        have hne : ¬(q = k) := fun h => hk (by rw [h2, h]; simp)
        simp [mapSet, hk, mapGet, List.find?, hq, hne]
      · simp only [mapSet, hk, Bool.false_eq_true, if_false]
        simp only [mapGet, List.find?, hq, Bool.false_eq_true, if_false] at ih ⊢
        exact ih

theorem resolve_after_registrations {α : Type} (regs : List (Registration α))
    (st : CommandRegistry α) (k : String) :
    mapGet ((regs.foldl addCommand st).commands) k
      = match regs.reverse.find? (fun r => r.cmd == k) with
        | some r => some (effectiveHandler r)
        | none => mapGet st.commands k := by
  induction regs generalizing st with
  | nil => simp
  | cons r rs ih =>
    rw [List.foldl_cons, ih, List.reverse_cons, List.find?_append]
    cases hf : rs.reverse.find? (fun x => x.cmd == k) with
    | some x => simp [Option.or]
    | none =>
      by_cases hc : (r.cmd == k) = true
      · have h1 : r.cmd = k := by simpa using hc
        simp [Option.or, List.find?, hc, addCommand, mapGet_mapSet, h1]
      · have h2 : ¬(k = r.cmd) := fun h => hc (by simp [h])
        simp [Option.or, List.find?, hc, addCommand, mapGet_mapSet, h2]

/-- C7.  Resolution against the registry built by the startup chain of
`addCommand` calls: for any keyword, the result is exactly the effective
handler (the action, wrapped by its access decorator when one was supplied)
of the *last* registration under that keyword — later registrations
overwrite earlier ones — and `none` (NOT_FOUND) for any keyword never
registered, since `regs.reverse.find?` is precisely the last matching
registration. -/
theorem resolve_last_registration {α : Type} (regs : List (Registration α)) (k : String) :
    mapGet ((buildRegistry regs).commands) k
      = (regs.reverse.find? (fun r => r.cmd == k)).map effectiveHandler := by
  rw [buildRegistry, resolve_after_registrations]
  cases regs.reverse.find? (fun r => r.cmd == k) <;> rfl

/-- C5 (amended).  The process-local command counter (`Bot.REQUEST_COUNT`)
is incremented exactly when the inbound message comes from a non-bot author
and its first token starts with the command marker — the increment happens
before the registry lookup, so unknown keywords and failing handlers
increment it too. -/
theorem requestCount_incr_iff (env : DispatchEnv) (msg : Msg) :
    Effect.requestCountIncr ∈ onMessage env msg
      ↔ (msg.authorBot = false ∧ startsWithMarker (cmdToken msg.content) = true) := by
  unfold onMessage
  cases hb : msg.authorBot with
  | true => simp
  | false =>
    by_cases hs : startsWithMarker (cmdToken msg.content) = true
    · simp [hs]
    · simp [hs]

/-- Matches the `log.cmd` success record among the dispatch effects. -/
def hasLogCmd (l : List Effect) : Bool :=
  l.any (fun e =>
    match e with
    | Effect.logCmd _ => true
    | _ => false)

/-- C5 (counterexample).  The message `"!ghost"`, whose keyword resolves to
no registered command, increments the counter even though no handler was
dispatched, let alone completed successfully (no `log.cmd` success record
among the effects) — contradicting "incremented exactly when a dispatched
command handler completes successfully". -/
theorem requestCount_unknown_cmd_counterexample :
    Effect.requestCountIncr
        ∈ onMessage
          { commands := [], deleteThrows := false, dmSendThrows := false,
            logChannelThrows := false }
          { authorBot := false, content := "!ghost", inGuild := true, authorUsername := "bob" } ∧
    hasLogCmd (onMessage
          { commands := [], deleteThrows := false, dmSendThrows := false,
            logChannelThrows := false }
          { authorBot := false, content := "!ghost", inGuild := true, authorUsername := "bob" })
        = false := by
  decide

/-- C6.  For a non-bot message with the platform delete call not throwing,
the dispatcher terminates the process (emits `processExit 0`) exactly when
the first token of the message is `!shutdown` and the handler registered
under the keyword `shutdown` returns the exact success sentinel
`"shutdown successful"`: any other outcome string does not terminate, and
any other command keyword returning the sentinel does not terminate
(the source checks `cmd === '!shutdown' && output === 'shutdown successful'`). -/
theorem shutdown_exit_iff (env : DispatchEnv) (msg : Msg)
    (hb : msg.authorBot = false) (hd : env.deleteThrows = false) :
    Effect.processExit 0 ∈ onMessage env msg
      ↔ (cmdToken msg.content = "!shutdown" ∧
         mapGet env.commands "shutdown" = some (HandlerBehaviour.ok shutdownSentinel)) := by
  unfold onMessage
  rw [hb, hd]
  simp only [Bool.false_eq_true, if_false, Bool.and_false]
  by_cases hs : startsWithMarker (cmdToken msg.content) = true
  · rw [if_pos hs]
    cases hf : mapGet env.commands (keyOf (cmdToken msg.content)) with
    | none =>
      constructor
      · intro hmem
        cases hdm : env.dmSendThrows <;> simp [hdm] at hmem
      · rintro ⟨h1, h2⟩
        rw [h1] at hf
        have : keyOf "!shutdown" = "shutdown" := by decide
        rw [this] at hf
        rw [hf] at h2
        exact Option.noConfusion h2
    | some fn =>
      cases fn with
      | throws e =>
        constructor
        · intro hmem
          cases hg : msg.inGuild <;> simp [hg] at hmem
        · rintro ⟨h1, h2⟩
          rw [h1] at hf
          have : keyOf "!shutdown" = "shutdown" := by decide
          rw [this] at hf
          rw [hf] at h2
          simp at h2
      | ok output =>
        by_cases hcond : (cmdToken msg.content == "!shutdown" && output == shutdownSentinel) = true
        · have h1 : cmdToken msg.content = "!shutdown" := by
            have := (Bool.and_eq_true _ _).mp hcond
            simpa using this.1
          have h2 : output = shutdownSentinel := by
            have := (Bool.and_eq_true _ _).mp hcond
            simpa using this.2
          rw [h1] at hf
          have hkey : keyOf "!shutdown" = "shutdown" := by decide
          rw [hkey] at hf
          constructor
          · intro _
            exact ⟨h1, by rw [hf, h2]⟩
          · intro _
            simp [hcond, h1]
            cases hg : msg.inGuild <;> cases hl : env.logChannelThrows <;> simp [h2]
        · constructor
          · intro hmem
            exfalso
            cases hg : msg.inGuild <;> cases hl : env.logChannelThrows <;>
              simp [hg, hl, hcond] at hmem
          · rintro ⟨h1, h2⟩
            exfalso
            rw [h1] at hf
            have hkey : keyOf "!shutdown" = "shutdown" := by decide
            rw [hkey] at hf
            rw [hf] at h2
            have h2e : output = shutdownSentinel := by
              simpa using h2
            apply hcond
            rw [h1, h2e]
            simp
  · rw [if_neg hs]
    constructor
    · intro hmem
      simp at hmem
    · rintro ⟨h1, _⟩
      exfalso
      rw [h1] at hs
      exact hs (by decide)

/-- Witness for C6 at a concrete dispatch in which the process exits. -/
theorem shutdown_exit_iff_witness :
    Effect.processExit 0
      ∈ onMessage
        { commands := [("shutdown", HandlerBehaviour.ok shutdownSentinel)],
          deleteThrows := false, dmSendThrows := false, logChannelThrows := false }
        { authorBot := false, content := "!shutdown", inGuild := true,
          authorUsername := "alice" } :=
  (shutdown_exit_iff
      { commands := [("shutdown", HandlerBehaviour.ok shutdownSentinel)],
        deleteThrows := false, dmSendThrows := false, logChannelThrows := false }
      { authorBot := false, content := "!shutdown", inGuild := true,
        authorUsername := "alice" }
      rfl rfl).mpr (by constructor <;> decide)

/-- C4 (counterexample).  An unknown command arriving in a *private*
context (`msg.guild` absent): the claim says the triggering message is
deleted only in a shared-channel context, but the source's unknown-command
branch calls `msg.delete()` unconditionally, so the deletion effect occurs
here too.  (The claim's other half fails as well: when the deletion throws,
the same try block skips the private notice, see the amended theorem.) -/
theorem unknown_cmd_pm_delete_counterexample :
    ({ authorBot := false, content := "!nope", inGuild := false,
       authorUsername := "bob" } : Msg).inGuild = false ∧
    Effect.msgDelete
      ∈ onMessage
        { commands := [], deleteThrows := false, dmSendThrows := false,
          logChannelThrows := false }
        { authorBot := false, content := "!nope", inGuild := false,
          authorUsername := "bob" } := by
  decide

/-- C4 (amended).  On an unknown command keyword the dispatcher attempts to
delete the triggering message unconditionally — in shared and private
contexts alike — and the deletion is *not* best-effort with respect to the
notice: the message-deletion effect occurs iff the delete call does not
throw; when the delete call throws, the private notice and the NO_COMMAND
error entry are skipped and a MESSAGE_DELETE error entry is logged instead;
when both the deletion and the DM send succeed, the private
"unrecognized command" notice is sent and an error-level NO_COMMAND entry
is logged. -/
theorem unknown_cmd_dispatch (env : DispatchEnv) (msg : Msg)
    (hb : msg.authorBot = false)
    (hs : startsWithMarker (cmdToken msg.content) = true)
    (hun : mapGet env.commands (keyOf (cmdToken msg.content)) = none) :
    (Effect.msgDelete ∈ onMessage env msg ↔ env.deleteThrows = false) ∧
    (env.deleteThrows = true →
      Effect.logErr "MESSAGE_DELETE" ∈ onMessage env msg ∧
      ∀ t, Effect.dmSent t ∉ onMessage env msg) ∧
    (env.deleteThrows = false → env.dmSendThrows = false →
      Effect.dmSent (unknownCmdNotice (cmdToken msg.content)) ∈ onMessage env msg ∧
      Effect.logErr ("NO_COMMAND (" ++ msg.authorUsername ++ ") - " ++ cmdToken msg.content)
        ∈ onMessage env msg) := by
  unfold onMessage
  rw [hb]
  simp only [Bool.false_eq_true, if_false]
  rw [if_pos hs, hun]
  cases hdel : env.deleteThrows <;> cases hdm : env.dmSendThrows <;> simp

/-- Witness for C4 (amended) at a concrete private-context dispatch with no
platform failures. -/
theorem unknown_cmd_dispatch_witness :
    (Effect.msgDelete
        ∈ onMessage
          { commands := [], deleteThrows := false, dmSendThrows := false,
            logChannelThrows := false }
          { authorBot := false, content := "!zzz", inGuild := false,
            authorUsername := "eve" }
      ↔ ({ commands := [], deleteThrows := false, dmSendThrows := false,
           logChannelThrows := false } : DispatchEnv).deleteThrows = false) ∧
    (({ commands := [], deleteThrows := false, dmSendThrows := false,
        logChannelThrows := false } : DispatchEnv).deleteThrows = true →
      Effect.logErr "MESSAGE_DELETE"
          ∈ onMessage
            { commands := [], deleteThrows := false, dmSendThrows := false,
              logChannelThrows := false }
            { authorBot := false, content := "!zzz", inGuild := false,
              authorUsername := "eve" } ∧
      ∀ t, Effect.dmSent t
          ∉ onMessage
            { commands := [], deleteThrows := false, dmSendThrows := false,
              logChannelThrows := false }
            { authorBot := false, content := "!zzz", inGuild := false,
              authorUsername := "eve" }) ∧
    (({ commands := [], deleteThrows := false, dmSendThrows := false,
        logChannelThrows := false } : DispatchEnv).deleteThrows = false →
      ({ commands := [], deleteThrows := false, dmSendThrows := false,
         logChannelThrows := false } : DispatchEnv).dmSendThrows = false →
      Effect.dmSent (unknownCmdNotice (cmdToken "!zzz"))
          ∈ onMessage
            { commands := [], deleteThrows := false, dmSendThrows := false,
              logChannelThrows := false }
            { authorBot := false, content := "!zzz", inGuild := false,
              authorUsername := "eve" } ∧
      Effect.logErr ("NO_COMMAND (" ++ "eve" ++ ") - " ++ cmdToken "!zzz")
          ∈ onMessage
            { commands := [], deleteThrows := false, dmSendThrows := false,
              logChannelThrows := false }
            { authorBot := false, content := "!zzz", inGuild := false,
              authorUsername := "eve" }) :=
  unknown_cmd_dispatch
    { commands := [], deleteThrows := false, dmSendThrows := false, logChannelThrows := false }
    { authorBot := false, content := "!zzz", inGuild := false, authorUsername := "eve" }
    rfl (by decide) (by decide)


end UOBot
